import Mathlib

/-
Shallow embedding of the window-base / control-lifecycle layer of the
native-windows-gui repository (src/controls/base/mod.rs), together with the
style-flag computation of ExternCanvasBuilder::build
(native-windows-gui/src/controls/extern_canvas.rs).

Windows and the OS-side per-window storage cells are modelled as explicit
state.  OS interactions (message sending, child enumeration, window creation
and destruction) are recorded in an event trace.  Machine integers are
modelled as Nat (for unsigned style words, which only undergo bitwise
operations, so no wraparound can occur) and Int (for signed cell indices,
with the usize → i32 cast made explicit).
-/

/-- Window style constant of the winapi crate: WS_VISIBLE. -/
def WS_VISIBLE : Nat := 0x10000000

/-- Window style constant of the winapi crate: WS_CHILD. -/
def WS_CHILD : Nat := 0x40000000

/-- Window style constant of the winapi crate: WS_OVERLAPPED. -/
def WS_OVERLAPPED : Nat := 0x00000000

/-- Window style constant of the winapi crate: WS_CAPTION. -/
def WS_CAPTION : Nat := 0x00C00000

/-- Window style constant of the winapi crate: WS_SYSMENU. -/
def WS_SYSMENU : Nat := 0x00080000

/-- Window style constant of the winapi crate: WS_THICKFRAME. -/
def WS_THICKFRAME : Nat := 0x00040000

/-- Window style constant of the winapi crate: WS_MINIMIZEBOX. -/
def WS_MINIMIZEBOX : Nat := 0x00020000

/-- Window style constant of the winapi crate: WS_MAXIMIZEBOX. -/
def WS_MAXIMIZEBOX : Nat := 0x00010000

/-- Window style constant of the winapi crate: WS_OVERLAPPEDWINDOW, the union
of WS_OVERLAPPED, WS_CAPTION, WS_SYSMENU, WS_THICKFRAME, WS_MINIMIZEBOX and
WS_MAXIMIZEBOX (numerically 0x00CF0000). -/
def WS_OVERLAPPEDWINDOW : Nat := 0x00CF0000

/-- Window-long cell index constant of the winapi crate: GWLP_USERDATA.  This
is the "default slot" used by set_handle_data / get_handle_data /
free_handle_data. -/
def GWLP_USERDATA : Int := -21

/-- Size in bytes of a Rust usize on the 64-bit targets the crate supports;
used by the offset-slot functions, which scale the offset by
mem::size_of::<usize>(). -/
def USIZE_BYTES : Nat := 8

/-- Window handles (HWND) are modelled as natural numbers; 0 is the null
handle. -/
abbrev HWND := Nat

/-- Observable OS interactions performed by the embedded functions, recorded
in traces.  `notice h` is the delivery of the custom NWG_DESTROY_NOTICE
message to handle `h` via send_message; `enumChildren h` is a call to
EnumChildWindows on `h`; `freeData h` is the reclamation of the default-slot
metadata of `h`; the remaining constructors record the corresponding winapi
calls made by create_base and free_handle. -/
inductive Event where
  | notice (h : HWND)
  | enumChildren (h : HWND)
  | freeData (h : HWND)
  | destroyWindow (h : HWND)
  | getModuleHandle
  | createWindow (h : HWND) (flags : Nat)
  | setSubclass (h : HWND)
  | fixSize (h : HWND)
deriving DecidableEq, Repr

/-- Recognizer for metadata-reclamation events. -/
def Event.isFreeData : Event → Bool
  | Event.freeData _ => true
  | _ => false

/-- Heap of boxed payloads: `next` drives fresh-address allocation (an
allocation returns address next+1 so that addresses are never the null
address 0), `mem` maps an address to the payload it currently holds. -/
structure Heap (T : Type) where
  next : Nat
  mem : Nat → Option T

/-- Whole-system state for the embedding: the set of live windows and their
parent links (owned by the OS in the source and discovered through
EnumChildWindows), the per-window per-index storage cells behind
get_window_long / set_window_long, the heap of boxed payloads, and the
control collection of the owning Ui (a list of identifier/handle pairs). -/
structure State (ID T : Type) where
  windows : List HWND
  parent : HWND → Option HWND
  winLong : HWND → Int → Nat
  heap : Heap T
  controls : List (ID × HWND)

/-- Modelled from the spec: get_window_long lives in controls/base/helper.rs,
which is not among the provided sources; per the spec it is the read
accessor of a handle's indexed storage slots (a thin wrapper over the OS
GetWindowLongPtrW). -/
def getWindowLong (s : State ID T) (handle : HWND) (idx : Int) : Nat :=
  s.winLong handle idx

/-- Modelled from the spec: set_window_long lives in controls/base/helper.rs,
which is not among the provided sources; per the spec it is the write
accessor of a handle's indexed storage slots (a thin wrapper over the OS
SetWindowLongPtrW). -/
def setWindowLong (s : State ID T) (handle : HWND) (idx : Int) (v : Nat) :
    State ID T :=
  { s with winLong := fun h2 i2 =>
      if h2 = handle ∧ i2 = idx then v else s.winLong h2 i2 }

/-- Box::into_raw(Box::new(data)): allocates a fresh non-null address for the
payload and returns it together with the updated heap state. -/
def boxIntoRaw (s : State ID T) (data : T) : Nat × State ID T :=
  let a := s.heap.next + 1
  (a, { s with heap := { next := a,
                         mem := fun p => if p = a then some data else s.heap.mem p } })

/-- Box::from_raw followed by drop: reclaims the payload stored at the given
address.  The source performs this without a null check (spec section 9
notes the asymmetry); the model simply clears the address. -/
def boxFromRaw (s : State ID T) (p : Nat) : State ID T :=
  { s with heap := { s.heap with mem := fun q => if q = p then none else s.heap.mem q } }

/-- Truncating cast of a usize expression to i32, as performed by
`(offset*mem::size_of::<usize>()) as i32` in the offset-slot functions. -/
def usizeToI32 (n : Nat) : Int :=
  if n % 4294967296 < 2147483648 then ((n % 4294967296 : Nat) : Int)
  else ((n % 4294967296 : Nat) : Int) - 4294967296

/-- Storage-cell index used by the offset-slot functions for a given offset:
the offset scaled by the pointer size, cast to i32. -/
def offsetCell (offset : Nat) : Int := usizeToI32 (offset * USIZE_BYTES)

/-- Embedding of set_handle_data (mod.rs lines 143-146): box the payload and
store its address in the default slot GWLP_USERDATA. -/
def set_handle_data (s : State ID T) (handle : HWND) (data : T) : State ID T :=
  let r := boxIntoRaw s data
  setWindowLong r.2 handle GWLP_USERDATA r.1

/-- Embedding of set_handle_data_off (mod.rs lines 151-154): box the payload
and store its address in the cell at index offset * size_of::<usize>(). -/
def set_handle_data_off (s : State ID T) (handle : HWND) (data : T)
    (offset : Nat) : State ID T :=
  let r := boxIntoRaw s data
  setWindowLong r.2 handle (offsetCell offset) r.1

/-- Embedding of get_handle_data (mod.rs lines 159-167): read the default
slot; if non-null, dereference the stored address (modelled as a heap
lookup; a dangling address yields none, which in the source is undefined
behaviour), else return None. -/
def get_handle_data (s : State ID T) (handle : HWND) : Option T :=
  let data_ptr := getWindowLong s handle GWLP_USERDATA
  if data_ptr ≠ 0 then s.heap.mem data_ptr else none

/-- Embedding of get_handle_data_off (mod.rs lines 172-180): like
get_handle_data but at the scaled offset cell. -/
def get_handle_data_off (s : State ID T) (handle : HWND) (offset : Nat) :
    Option T :=
  let data_ptr := getWindowLong s handle (offsetCell offset)
  if data_ptr ≠ 0 then s.heap.mem data_ptr else none

/-- Embedding of free_handle_data (mod.rs lines 185-191): reclaim the box
whose address is in the default slot (no null check in the source), then
null the slot. -/
def free_handle_data (s : State ID T) (handle : HWND) : State ID T :=
  let data_ptr := getWindowLong s handle GWLP_USERDATA
  let s1 := boxFromRaw s data_ptr
  setWindowLong s1 handle GWLP_USERDATA 0

/-- Embedding of free_handle_data_off (mod.rs lines 196-202): like
free_handle_data but at the scaled offset cell. -/
def free_handle_data_off (s : State ID T) (handle : HWND) (offset : Nat) :
    State ID T :=
  let data_ptr := getWindowLong s handle (offsetCell offset)
  let s1 := boxFromRaw s data_ptr
  setWindowLong s1 handle (offsetCell offset) 0

/-- Chain of ancestors of a window obtained by iterating the parent link,
bounded by a fuel argument (the number of live windows suffices for any
acyclic parent relation). -/
def ancestorChain (s : State ID T) (w : HWND) : Nat → List HWND
  | 0 => []
  | fuel + 1 =>
    match s.parent w with
    | none => []
    | some p => p :: ancestorChain s p fuel

/-- Whether `w` is a direct or indirect child of `root` in the OS window
tree. -/
def isDescendantOf (s : State ID T) (root w : HWND) : Bool :=
  (ancestorChain s w s.windows.length).contains root

/-- Descendants of `root` in enumeration order, as produced by
EnumChildWindows (which visits direct and indirect children). -/
def enumDescendants (s : State ID T) (root : HWND) : List HWND :=
  s.windows.filter (fun w => isDescendantOf s root w)

/-- Events of the first EnumChildWindows pass of free_handle, whose callback
notice_child_destroy (mod.rs lines 205-208) sends NWG_DESTROY_NOTICE to each
enumerated window. -/
def noticePass (ds : List HWND) : List Event := ds.map Event.notice

/-- Second EnumChildWindows pass of free_handle, whose callback
free_child_data (mod.rs lines 210-214) sends NWG_DESTROY_NOTICE to each
enumerated window and then frees its default-slot metadata. -/
def freePass : State ID T → List HWND → List Event × State ID T
  | s, [] => ([], s)
  | s, d :: rest =>
    let r := freePass (free_handle_data s d) rest
    (Event.notice d :: Event.freeData d :: r.1, r.2)

/-- DestroyWindow: the OS removes the window and all its descendants from
the set of live windows. -/
def destroyWindowOp (s : State ID T) (handle : HWND) : State ID T :=
  { s with windows :=
      s.windows.filter (fun w => !(w == handle || isDescendantOf s handle w)) }

/-- Embedding of free_handle (mod.rs lines 220-234): if the default-slot
metadata is null, do nothing.  Otherwise send NWG_DESTROY_NOTICE to the
handle, enumerate children with notice_child_destroy, enumerate children
again with free_child_data, call DestroyWindow, free the handle's own boxed
metadata through the pointer read at entry, and null the default slot.  The
control collection is never touched. -/
def free_handle (s : State ID T) (handle : HWND) : List Event × State ID T :=
  let data_raw := getWindowLong s handle GWLP_USERDATA
  if data_raw ≠ 0 then
    let ds := enumDescendants s handle
    let r := freePass s ds
    let s2 := destroyWindowOp r.2 handle
    let s3 := boxFromRaw s2 data_raw
    let s4 := setWindowLong s3 handle GWLP_USERDATA 0
    ([Event.notice handle, Event.enumChildren handle] ++ noticePass ds
      ++ [Event.enumChildren handle] ++ r.1
      ++ [Event.destroyWindow handle, Event.freeData handle], s4)
  else ([], s)

/-- Modelled from the spec: WindowData<ID> is defined in the crate root
(lib.rs), which is not among the provided sources.  Per the spec it is the
Control Identity record linking a handle back to its logical identifier and
to the owning collection; the back-reference to the collection is
represented by the collection carried in `State`. -/
structure WindowData (ID : Type) where
  id : ID

/-- Modelled from the spec: the Error enumeration lives in constants.rs,
which is not among the provided sources.  The spec's error taxonomy names
CreationFailed, NotFound and NoUi; the source spelling used by
destroy_control is Error::NO_UI. -/
inductive Error where
  | NO_UI
  | NOT_FOUND
  | CREATION_FAILED
deriving DecidableEq, Repr

/-- Modelled from the spec: Ui.remove_control is defined in lib.rs, which is
not among the provided sources; only its caller destroy_control and the doc
comment on free_handle ("This is called by Ui.remove_control") refer to it.
Per the spec it delegates removal to the owning collection and returns the
identifiers actually removed; the model frees the identified handle through
free_handle and removes the entry of the given identifier from the
collection. -/
def remove_control [DecidableEq ID] (s : State ID (WindowData ID)) (id : ID) :
    Except Error (List ID) × State ID (WindowData ID) :=
  match s.controls.find? (fun e => decide (e.1 = id)) with
  | some e =>
    let s1 := (free_handle s e.2).2
    (Except.ok [id],
      { s1 with controls := s1.controls.filter (fun e2 => !(decide (e2.1 = id))) })
  | none => (Except.error Error.NOT_FOUND, s)

/-- Embedding of destroy_control (mod.rs lines 240-251): read the default
slot; if null, fail with Error::NO_UI; otherwise dereference the stored
WindowData record and delegate to Ui.remove_control on its identifier.
Dereferencing a dangling (freed) address is undefined behaviour in the
source; the model collapses that case to the NO_UI failure, which no claim
depends on. -/
def destroy_control [DecidableEq ID] (s : State ID (WindowData ID))
    (handle : HWND) : Except Error (List ID) × State ID (WindowData ID) :=
  let data_raw := getWindowLong s handle GWLP_USERDATA
  if data_raw ≠ 0 then
    match s.heap.mem data_raw with
    | some data => remove_control s data.id
    | none => (Except.error Error.NO_UI, s)
  else (Except.error Error.NO_UI, s)

/-- Empty concrete state over Nat identifiers and Nat payloads, used as the
base of concrete instances. -/
def emptyState : State Nat Nat :=
  { windows := []
    parent := fun _ => none
    winLong := fun _ _ => 0
    heap := { next := 0, mem := fun _ => none }
    controls := [] }

/-- Reading a cell just written by setWindowLong yields the written value. -/
theorem getWindowLong_setWindowLong_self (s : State ID T) (h : HWND) (i : Int)
    (v : Nat) : getWindowLong (setWindowLong s h i v) h i = v := by
  simp [getWindowLong, setWindowLong]

/-- Claim C7: attaching a payload at a slot (default slot via
set_handle_data, or any offset slot via set_handle_data_off) and then reading
that same slot returns exactly the payload written, and detaching a slot
(free_handle_data / free_handle_data_off) and then reading it returns None. -/
theorem attach_read_detach_roundtrip (ID T : Type) (s : State ID T)
    (handle : HWND) (offset : Nat) (d : T) :
    get_handle_data (set_handle_data s handle d) handle = some d
    ∧ get_handle_data_off (set_handle_data_off s handle d offset) handle offset
        = some d
    ∧ (∀ s2 : State ID T, get_handle_data (free_handle_data s2 handle) handle = none)
    ∧ (∀ s2 : State ID T,
        get_handle_data_off (free_handle_data_off s2 handle offset) handle offset
          = none) := by
  refine ⟨?_, ?_, ?_, ?_⟩
  · simp [get_handle_data, set_handle_data, boxIntoRaw, getWindowLong,
      setWindowLong]
  · simp [get_handle_data_off, set_handle_data_off, boxIntoRaw, getWindowLong,
      setWindowLong]
  · intro s2
    simp [get_handle_data, free_handle_data, boxFromRaw, getWindowLong,
      setWindowLong]
  · intro s2
    simp [get_handle_data_off, free_handle_data_off, boxFromRaw, getWindowLong,
      setWindowLong]

/-- Claim C3, counterexample: on a fresh handle, attaching the payload 42 at
offset slot 0 and then performing a default-slot read does not return the
payload, whereas attaching through set_handle_data does: offset slot 0 is not
the default slot. -/
theorem offset_zero_not_default_slot :
    get_handle_data (set_handle_data_off emptyState 1 (42 : Nat) 0) 1 ≠ some 42
    ∧ get_handle_data (set_handle_data emptyState 1 (42 : Nat)) 1 = some 42 := by
  constructor
  · decide
  · decide

/-- Claim C3, amended: set_handle_data_off at offset 0 stores the (non-null)
payload address in the cell at index 0 * size_of::<usize>() = 0, which is a
different storage location from the default slot GWLP_USERDATA = -21 used by
set_handle_data; the default-slot cell is left unchanged, so a subsequent
default-slot read does not observe the newly attached payload address. -/
theorem offset_zero_slot_distinct (ID T : Type) (s : State ID T)
    (handle : HWND) (d : T) :
    getWindowLong (set_handle_data_off s handle d 0) handle GWLP_USERDATA
      = getWindowLong s handle GWLP_USERDATA
    ∧ getWindowLong (set_handle_data_off s handle d 0) handle (offsetCell 0)
        = s.heap.next + 1
    ∧ getWindowLong (set_handle_data s handle d) handle GWLP_USERDATA
        = s.heap.next + 1
    ∧ offsetCell 0 ≠ GWLP_USERDATA := by
  refine ⟨?_, ?_, ?_, by decide⟩
  · simp [set_handle_data_off, boxIntoRaw, getWindowLong, setWindowLong]
    intro h
    exact absurd h (by decide)
  · simp [set_handle_data_off, boxIntoRaw, getWindowLong, setWindowLong]
  · simp [set_handle_data, boxIntoRaw, getWindowLong, setWindowLong]

/-- Empty concrete state whose payload type is the Control Identity record,
used by the destroy_control claims. -/
def emptyUiState : State Nat (WindowData Nat) :=
  { windows := []
    parent := fun _ => none
    winLong := fun _ _ => 0
    heap := { next := 0, mem := fun _ => none }
    controls := [] }

/-- On a handle whose default slot is null, free_handle does nothing. -/
theorem free_handle_null (s : State ID T) (handle : HWND)
    (h0 : getWindowLong s handle GWLP_USERDATA = 0) :
    free_handle s handle = (([] : List Event), s) := by
  simp [free_handle, h0]

/-- Claim C8: after any completed call of free_handle, a second call on the
same handle observes a null default slot, performs no OS interaction at all
(empty event trace) and leaves the state untouched. -/
theorem free_handle_idempotent (ID T : Type) (s : State ID T) (handle : HWND) :
    free_handle (free_handle s handle).2 handle
      = (([] : List Event), (free_handle s handle).2) := by
  by_cases hc : getWindowLong s handle GWLP_USERDATA = 0
  · rw [free_handle_null s handle hc]
    exact free_handle_null s handle hc
  · have h2 : getWindowLong (free_handle s handle).2 handle GWLP_USERDATA = 0 := by
      simp only [free_handle]
      rw [if_pos hc]
      exact getWindowLong_setWindowLong_self _ _ _ _
    exact free_handle_null _ handle h2

/-- Claim C9: destroy_control on a handle whose default slot carries no
Control Identity record returns the NO_UI error, removes nothing from the
collection and leaves the whole state unchanged. -/
theorem destroy_control_no_identity (ID : Type) [DecidableEq ID]
    (s : State ID (WindowData ID)) (handle : HWND)
    (h0 : getWindowLong s handle GWLP_USERDATA = 0) :
    destroy_control s handle = (Except.error Error.NO_UI, s) := by
  simp [destroy_control, h0]

/-- Witness for claim C9 at a concrete input: the empty state with handle 1. -/
theorem destroy_control_no_identity_witness :
    getWindowLong emptyUiState 1 GWLP_USERDATA = 0
    ∧ destroy_control emptyUiState 1 = (Except.error Error.NO_UI, emptyUiState) :=
  ⟨by decide, destroy_control_no_identity Nat emptyUiState 1 (by decide)⟩

/-- Frame lemma: free_handle_data never touches the control collection. -/
theorem free_handle_data_controls (s : State ID T) (handle : HWND) :
    (free_handle_data s handle).controls = s.controls := rfl

/-- Frame lemma: the free pass of free_handle never touches the control
collection. -/
theorem freePass_controls (s : State ID T) (ds : List HWND) :
    (freePass s ds).2.controls = s.controls := by
  induction ds generalizing s with
  | nil => rfl
  | cons a rest ih => simp [freePass, ih, free_handle_data_controls]

/-- Claim C10: free_handle never mutates the control collection (every
identifier-to-handle entry is left in place), and destroy_control either
fails with NO_UI leaving the state unchanged or delegates entirely to
Ui.remove_control on the identifier read from the handle's Control Identity
record — so removal of identifiers from the collection only ever happens
through that delegation. -/
theorem free_handle_no_collection_mutation (ID T : Type) [DecidableEq ID] :
    (∀ (s : State ID T) (handle : HWND),
        ((free_handle s handle).2).controls = s.controls)
    ∧ (∀ (s : State ID (WindowData ID)) (handle : HWND),
        destroy_control s handle = (Except.error Error.NO_UI, s)
        ∨ ∃ id, destroy_control s handle = remove_control s id) := by
  constructor
  · intro s handle
    by_cases hc : getWindowLong s handle GWLP_USERDATA = 0
    · rw [free_handle_null s handle hc]
    · simp only [free_handle]
      rw [if_pos hc]
      simp [setWindowLong, boxFromRaw, destroyWindowOp, freePass_controls]
  · intro s handle
    by_cases hc : getWindowLong s handle GWLP_USERDATA = 0
    · exact Or.inl (destroy_control_no_identity ID s handle hc)
    · simp only [destroy_control]
      rw [if_pos hc]
      cases hm : s.heap.mem (getWindowLong s handle GWLP_USERDATA) with
      | none => exact Or.inl rfl
      | some data => exact Or.inr ⟨data.id, rfl⟩

/-- Concrete two-level window tree: window 1 (with metadata at address 5) is
the parent of window 2, which is the parent of window 3; all three carry
default-slot metadata. -/
def c1State : State Nat Nat :=
  { windows := [1, 2, 3]
    parent := fun w => if w = 2 then some 1 else if w = 3 then some 2 else none
    winLong := fun w i =>
      if w = 1 ∧ i = GWLP_USERDATA then 5
      else if w = 2 ∧ i = GWLP_USERDATA then 6
      else if w = 3 ∧ i = GWLP_USERDATA then 7
      else 0
    heap := { next := 10
              mem := fun p =>
                if p = 5 then some 105
                else if p = 6 then some 106
                else if p = 7 then some 107
                else none }
    controls := [] }

/-- Count of notices to a given window in the first enumeration pass. -/
theorem noticePass_count (ds : List HWND) (d : HWND) :
    (noticePass ds).count (Event.notice d) = ds.count d := by
  induction ds with
  | nil => rfl
  | cons a rest ih =>
    simp only [noticePass] at ih ⊢
    simp [List.count_cons, ih]

/-- Count of notices to a given window in the second (freeing) enumeration
pass: free_child_data sends the notice once per enumerated window. -/
theorem freePass_count_notice (s : State ID T) (ds : List HWND) (d : HWND) :
    (freePass s ds).1.count (Event.notice d) = ds.count d := by
  induction ds generalizing s with
  | nil => rfl
  | cons a rest ih => simp [freePass, List.count_cons, ih]

/-- Shape of the free_handle event trace on a handle with non-null
metadata. -/
theorem free_handle_trace (s : State ID T) (handle : HWND)
    (hdata : getWindowLong s handle GWLP_USERDATA ≠ 0) :
    (free_handle s handle).1 =
      [Event.notice handle, Event.enumChildren handle]
        ++ noticePass (enumDescendants s handle)
        ++ [Event.enumChildren handle] ++ (freePass s (enumDescendants s handle)).1
        ++ [Event.destroyWindow handle, Event.freeData handle] := by
  simp only [free_handle]
  rw [if_pos hdata]

/-- Claim C1, amended: on a handle with non-null default-slot metadata and a
(two levels deep) set of descendants, free_handle delivers the destroy
notice to every descendant exactly twice — once in the notify-all pass and
once more in the freeing pass, immediately before that descendant's own
metadata is freed — not exactly once; and every descendant receives its
first notice inside an initial trace segment in which no metadata of any
window has yet been freed. -/
theorem destroy_notice_twice_before_free (ID T : Type) (s : State ID T)
    (handle : HWND)
    (hdata : getWindowLong s handle GWLP_USERDATA ≠ 0)
    (hnodup : (enumDescendants s handle).Nodup)
    (hself : handle ∉ enumDescendants s handle)
    (c g : HWND) (hc : c ∈ enumDescendants s handle)
    (hg : g ∈ enumDescendants s handle)
    (hpc : s.parent c = some handle) (hpg : s.parent g = some c) :
    (∀ d ∈ enumDescendants s handle,
        (free_handle s handle).1.count (Event.notice d) = 2)
    ∧ (∀ d ∈ enumDescendants s handle,
        Event.notice d ∈
          (free_handle s handle).1.take (2 + (enumDescendants s handle).length))
    ∧ ∀ e ∈ (free_handle s handle).1.take (2 + (enumDescendants s handle).length),
        e.isFreeData = false := by
  have htr := free_handle_trace s handle hdata
  have htake : (free_handle s handle).1.take (2 + (enumDescendants s handle).length)
      = [Event.notice handle, Event.enumChildren handle]
          ++ noticePass (enumDescendants s handle) := by
    rw [htr]
    rw [show ([Event.notice handle, Event.enumChildren handle]
          ++ noticePass (enumDescendants s handle)
          ++ [Event.enumChildren handle] ++ (freePass s (enumDescendants s handle)).1
          ++ [Event.destroyWindow handle, Event.freeData handle])
        = ([Event.notice handle, Event.enumChildren handle]
            ++ noticePass (enumDescendants s handle))
          ++ ([Event.enumChildren handle] ++ (freePass s (enumDescendants s handle)).1
              ++ [Event.destroyWindow handle, Event.freeData handle]) by
      simp]
    apply List.take_left'
    simp [noticePass]
    omega
  refine ⟨?_, ?_, ?_⟩
  · intro d hd
    have hdh : ¬(handle = d) := fun he => hself (he ▸ hd)
    rw [htr]
    simp [List.count_append, List.count_cons, noticePass_count,
      freePass_count_notice, hdh,
      List.count_eq_one_of_mem hnodup hd]
  · intro d hd
    rw [htake]
    simp only [noticePass]
    exact List.mem_append.mpr (Or.inr (List.mem_map_of_mem _ hd))
  · intro e he
    rw [htake] at he
    rcases List.mem_append.mp he with h1 | h1
    · simp at h1
      rcases h1 with h1 | h1 <;> subst h1 <;> rfl
    · simp only [noticePass] at h1
      obtain ⟨x, _, hx⟩ := List.mem_map.mp h1
      subst hx
      rfl

/-- Claim C1, counterexample: in the concrete two-level tree rooted at the
metadata-carrying handle 1 (children 2 and 3), descendant 2 does not receive
the destroy notice exactly once during free_handle. -/
theorem destroy_notice_not_exactly_once :
    2 ∈ enumDescendants c1State 1 ∧ 3 ∈ enumDescendants c1State 1
    ∧ c1State.parent 2 = some 1 ∧ c1State.parent 3 = some 2
    ∧ getWindowLong c1State 1 GWLP_USERDATA ≠ 0
    ∧ (free_handle c1State 1).1.count (Event.notice 2) ≠ 1 := by decide

/-- Witness for the amended claim C1 at the concrete two-level tree. -/
theorem destroy_notice_twice_before_free_witness :
    getWindowLong c1State 1 GWLP_USERDATA ≠ 0
    ∧ ((∀ d ∈ enumDescendants c1State 1,
          (free_handle c1State 1).1.count (Event.notice d) = 2)
       ∧ (∀ d ∈ enumDescendants c1State 1,
            Event.notice d ∈
              (free_handle c1State 1).1.take (2 + (enumDescendants c1State 1).length))
       ∧ ∀ e ∈ (free_handle c1State 1).1.take
            (2 + (enumDescendants c1State 1).length), e.isFreeData = false) :=
  ⟨by decide,
   destroy_notice_twice_before_free Nat Nat c1State 1 (by decide) (by decide)
     (by decide) 2 3 (by decide) (by decide) (by decide) (by decide)⟩

/-- Embedding of the WindowBase descriptor (mod.rs lines 38-47).  The source
field `class` is spelled className here because class is a Lean keyword; the
text, size, position and className fields are carried for fidelity but are
only consumed by the OS creation call itself. -/
structure WindowBase (ID : Type) where
  text : String
  size : Nat × Nat
  position : Int × Int
  visible : Bool
  resizable : Bool
  extra_style : Nat
  className : String
  parent : Option ID

/-- Embedding of the style-flag computation of create_base (mod.rs lines
73-82): the visibility bit, the child bit when the resolved parent handle is
non-null, a top-level decoration set chosen by resizability when the parent
handle is null, and the descriptor's extra style bits OR-ed in last. -/
def evalWindowFlags (visible parentIsNull resizable : Bool) (extra : Nat) : Nat :=
  let flags := 0
  let flags := if visible then flags ||| WS_VISIBLE else flags
  let flags := if !parentIsNull then flags ||| WS_CHILD else flags
  let flags :=
    if parentIsNull then
      if resizable then flags ||| WS_OVERLAPPEDWINDOW
      else flags ||| (WS_OVERLAPPED ||| WS_CAPTION ||| WS_SYSMENU
        ||| WS_MINIMIZEBOX ||| WS_MAXIMIZEBOX)
    else flags
  flags ||| extra

/-- Parent resolution step of create_base (mod.rs lines 59-68): none when the
descriptor names an identifier absent from the control collection (the Err
return), some 0 (the null handle) when no parent is requested, and the
handle stored in the collection otherwise. -/
def resolveParent [DecidableEq ID] (s : State ID T) (base : WindowBase ID) :
    Option HWND :=
  match base.parent with
  | some id => (s.controls.find? (fun e => decide (e.1 = id))).map (fun e => e.2)
  | none => some 0

/-- Fresh handle produced by the modelled CreateWindowExW: one larger than
every live handle, hence never the null handle 0. -/
def freshHwnd (s : State ID T) : HWND := s.windows.foldr max 0 + 1

/-- Embedding of create_base (mod.rs lines 55-105): GetModuleHandleW is
called first; the parent is then resolved, failing with Err on an absent
identifier; the style flags are computed; CreateWindowExW is invoked (the
model always yields a fresh non-null handle, so the null-handle Err branch
of the source is unreachable here); after the null check the compensating
resize fix_overlapped_window_size runs when flags ∧ WS_OVERLAPPEDWINDOW ≠ 0,
and SetWindowSubclass installs the subclass intercept. -/
def create_base [DecidableEq ID] (s : State ID T) (base : WindowBase ID) :
    List Event × Except Unit HWND × State ID T :=
  match resolveParent s base with
  | none => ([Event.getModuleHandle], Except.error (), s)
  | some parent =>
    let flags := evalWindowFlags base.visible (decide (parent = 0))
      base.resizable base.extra_style
    let hwnd := freshHwnd s
    let s1 := { s with
      windows := s.windows ++ [hwnd]
      parent := fun w =>
        if w = hwnd then (if parent = 0 then none else some parent)
        else s.parent w }
    ([Event.getModuleHandle, Event.createWindow hwnd flags]
      ++ (if flags &&& WS_OVERLAPPEDWINDOW ≠ 0 then [Event.fixSize hwnd] else [])
      ++ [Event.setSubclass hwnd],
     Except.ok hwnd, s1)

/-- Decoration mask stripped by ExternCanvasBuilder::build when a parent is
set (extern_canvas.rs line 268). -/
def DECOR_MASK : Nat :=
  WS_CAPTION ||| WS_SYSMENU ||| WS_MINIMIZEBOX ||| WS_THICKFRAME ||| WS_MAXIMIZEBOX

/-- Bitwise complement on 32-bit words, as produced by Rust's ! operator on
u32. -/
def not32 (m : Nat) : Nat := 0xFFFFFFFF ^^^ m

/-- Flag computation of ExternCanvasBuilder::build (extern_canvas.rs lines
261-270): the caller's flag bits (defaulting to ExternCanvas::flags, i.e.
WS_OVERLAPPEDWINDOW ||| WS_VISIBLE) have the top-level decoration bits
stripped and WS_CHILD forced when a parent is set. -/
def canvasBuildFlags (userFlags : Option Nat) (hasParent : Bool) : Nat :=
  let flags := userFlags.getD (WS_OVERLAPPEDWINDOW ||| WS_VISIBLE)
  if hasParent then (flags &&& not32 DECOR_MASK) ||| WS_CHILD else flags

/-- Distribution of bitwise and over bitwise or. -/
theorem and_or_mask (a b m : Nat) : (a ||| b) &&& m = (a &&& m) ||| (b &&& m) := by
  apply Nat.eq_of_testBit_eq
  intro i
  simp [Nat.testBit_or, Nat.testBit_and, Bool.and_or_distrib_right]

/-- Or-ing further bits cannot remove mask bits already present. -/
theorem or_preserves_mask (a b m : Nat) (h : a &&& m = m) :
    (a ||| b) &&& m = m := by
  apply Nat.eq_of_testBit_eq
  intro i
  have ht : (a.testBit i && m.testBit i) = m.testBit i := by
    have h2 := congrArg (fun n => n.testBit i) h
    simpa [Nat.testBit_and] using h2
  by_cases hm : m.testBit i = true
  · simp only [hm, Bool.and_true] at ht
    simp [Nat.testBit_and, Nat.testBit_or, hm, ht]
  · simp only [Bool.not_eq_true] at hm
    simp [Nat.testBit_and, Nat.testBit_or, hm]

/-- Or-ing bits disjoint from the mask leaves the masked value of the other
operand. -/
theorem or_and_of_disjoint (a b m : Nat) (h : a &&& m = 0) :
    (a ||| b) &&& m = b &&& m := by
  rw [and_or_mask, h]
  simp

/-- The left operand of a zero bitwise or is zero. -/
theorem lor_eq_zero_left (x y : Nat) (h : x ||| y = 0) : x = 0 := by
  apply Nat.eq_of_testBit_eq
  intro i
  have h2 := congrArg (fun n => n.testBit i) h
  simp only [Nat.testBit_or, Nat.zero_testBit, Bool.or_eq_false_iff] at h2
  simp [Nat.zero_testBit, h2.1]

/-- A masked value that is nonzero stays nonzero after or-ing more bits. -/
theorem or_and_ne_zero (a b m : Nat) (h : a &&& m ≠ 0) :
    (a ||| b) &&& m ≠ 0 := by
  rw [and_or_mask]
  intro hz
  exact h (lor_eq_zero_left _ _ hz)

/-- Or-ing the mask on top of any already-masked value yields the mask. -/
theorem and_lor_self (a m : Nat) : (a &&& m) ||| m = m := by
  apply Nat.eq_of_testBit_eq
  intro i
  simp only [Nat.testBit_or, Nat.testBit_and]
  cases m.testBit i <;> simp

/-- Shape of the flag word computed by create_base for a null parent. -/
theorem evalWindowFlags_true_eq (v r : Bool) (extra : Nat) :
    evalWindowFlags v true r extra =
      ((if v then WS_VISIBLE else 0) |||
       (if r then WS_OVERLAPPEDWINDOW
        else WS_OVERLAPPED ||| WS_CAPTION ||| WS_SYSMENU
          ||| WS_MINIMIZEBOX ||| WS_MAXIMIZEBOX)) ||| extra := by
  cases v <;> cases r <;> rfl

/-- Shape of the flag word computed by create_base for a non-null parent. -/
theorem evalWindowFlags_false_eq (v r : Bool) (extra : Nat) :
    evalWindowFlags v false r extra =
      ((if v then WS_VISIBLE else 0) ||| WS_CHILD) ||| extra := by
  cases v <;> cases r <;> rfl

/-- Claim C5: for a descriptor with no parent, create_base computes exactly
the flag word (resizable ⇒ WS_OVERLAPPEDWINDOW, otherwise WS_OVERLAPPED |||
WS_CAPTION ||| WS_SYSMENU ||| WS_MINIMIZEBOX ||| WS_MAXIMIZEBOX) with the
visibility bit and the descriptor's extra style bits OR-ed in; the part
contributed by create_base itself never contains the child bit WS_CHILD, and
the resulting word always contains the captioned and system-menu bits. -/
theorem top_level_flags (v r : Bool) (extra : Nat) :
    evalWindowFlags v true r extra =
      ((if v then WS_VISIBLE else 0) |||
       (if r then WS_OVERLAPPEDWINDOW
        else WS_OVERLAPPED ||| WS_CAPTION ||| WS_SYSMENU
          ||| WS_MINIMIZEBOX ||| WS_MAXIMIZEBOX)) ||| extra
    ∧ ((if v then WS_VISIBLE else 0) |||
       (if r then WS_OVERLAPPEDWINDOW
        else WS_OVERLAPPED ||| WS_CAPTION ||| WS_SYSMENU
          ||| WS_MINIMIZEBOX ||| WS_MAXIMIZEBOX)) &&& WS_CHILD = 0
    ∧ evalWindowFlags v true r extra &&& WS_CAPTION = WS_CAPTION
    ∧ evalWindowFlags v true r extra &&& WS_SYSMENU = WS_SYSMENU := by
  refine ⟨evalWindowFlags_true_eq v r extra, by cases v <;> cases r <;> decide,
    ?_, ?_⟩
  · rw [evalWindowFlags_true_eq]
    exact or_preserves_mask _ _ _ (by cases v <;> cases r <;> decide)
  · rw [evalWindowFlags_true_eq]
    exact or_preserves_mask _ _ _ (by cases v <;> cases r <;> decide)

/-- Shape of the create_base event trace once the parent resolves. -/
theorem create_base_trace [DecidableEq ID] (s : State ID T)
    (base : WindowBase ID) (p : HWND) (hres : resolveParent s base = some p) :
    (create_base s base).1 =
      [Event.getModuleHandle,
       Event.createWindow (freshHwnd s)
         (evalWindowFlags base.visible (decide (p = 0)) base.resizable
           base.extra_style)]
      ++ (if evalWindowFlags base.visible (decide (p = 0)) base.resizable
            base.extra_style &&& WS_OVERLAPPEDWINDOW ≠ 0
          then [Event.fixSize (freshHwnd s)] else [])
      ++ [Event.setSubclass (freshHwnd s)] := by
  simp only [create_base, hres]

/-- Claim C4, amended: on a successfully resolving descriptor the
compensating resize (fix_overlapped_window_size) is performed if and only if
the computed flag word has a nonzero intersection with the multi-bit mask
WS_OVERLAPPEDWINDOW.  In particular it IS performed for every top-level
descriptor — non-resizable ones included, because the fixed decoration set
shares the caption bit with the mask — and it is not performed for a
parented descriptor with no extra style bits. -/
theorem compensating_resize_iff (ID T : Type) [DecidableEq ID]
    (s : State ID T) (base : WindowBase ID) (p : HWND)
    (hres : resolveParent s base = some p) :
    ((Event.fixSize (freshHwnd s) ∈ (create_base s base).1) ↔
      evalWindowFlags base.visible (decide (p = 0)) base.resizable
        base.extra_style &&& WS_OVERLAPPEDWINDOW ≠ 0)
    ∧ (p = 0 → Event.fixSize (freshHwnd s) ∈ (create_base s base).1)
    ∧ (p ≠ 0 → base.extra_style = 0 →
        Event.fixSize (freshHwnd s) ∉ (create_base s base).1) := by
  have htr := create_base_trace s base p hres
  have h1 : (Event.fixSize (freshHwnd s) ∈ (create_base s base).1) ↔
      evalWindowFlags base.visible (decide (p = 0)) base.resizable
        base.extra_style &&& WS_OVERLAPPEDWINDOW ≠ 0 := by
    rw [htr]
    by_cases hcond : evalWindowFlags base.visible (decide (p = 0))
        base.resizable base.extra_style &&& WS_OVERLAPPEDWINDOW ≠ 0
    · simp [hcond]
    · simp [hcond]
  refine ⟨h1, ?_, ?_⟩
  · intro hp
    subst hp
    apply h1.mpr
    rw [show (decide ((0 : HWND) = 0)) = true from rfl, evalWindowFlags_true_eq]
    exact or_and_ne_zero _ _ _
      (by cases base.visible <;> cases base.resizable <;> decide)
  · intro hp hex
    have hcond : ¬ (evalWindowFlags base.visible (decide (p = 0))
        base.resizable base.extra_style &&& WS_OVERLAPPEDWINDOW ≠ 0) := by
      rw [decide_eq_false hp, evalWindowFlags_false_eq, hex]
      simp only [ne_eq, not_not]
      cases base.visible <;> decide
    exact fun hmem => hcond (h1.mp hmem)

/-- Concrete top-level non-resizable descriptor with no extra style bits. -/
def c4Base : WindowBase Nat :=
  { text := ""
    size := (0, 0)
    position := (0, 0)
    visible := true
    resizable := false
    extra_style := 0
    className := ""
    parent := none }

/-- Claim C4, counterexample: for the concrete top-level NON-resizable
descriptor with no extra style bits, create_base does perform the
compensating resize, contradicting "performed iff the flags indicate a
top-level resizable window". -/
theorem resize_on_nonresizable_top_level :
    c4Base.parent = none ∧ c4Base.resizable = false ∧ c4Base.extra_style = 0
    ∧ Event.fixSize (freshHwnd emptyState) ∈ (create_base emptyState c4Base).1 := by
  decide

/-- Witness for the amended claim C4 at the concrete descriptor c4Base. -/
theorem compensating_resize_iff_witness :
    resolveParent emptyState c4Base = some 0
    ∧ (((Event.fixSize (freshHwnd emptyState) ∈ (create_base emptyState c4Base).1) ↔
          evalWindowFlags c4Base.visible (decide ((0 : HWND) = 0)) c4Base.resizable
            c4Base.extra_style &&& WS_OVERLAPPEDWINDOW ≠ 0)
       ∧ ((0 : HWND) = 0 →
            Event.fixSize (freshHwnd emptyState) ∈ (create_base emptyState c4Base).1)
       ∧ ((0 : HWND) ≠ 0 → c4Base.extra_style = 0 →
            Event.fixSize (freshHwnd emptyState) ∉ (create_base emptyState c4Base).1)) :=
  ⟨by decide, compensating_resize_iff Nat Nat emptyState c4Base 0 (by decide)⟩

/-- Claim C2, amended: when the descriptor's parent identifier is absent
from the control collection, create_base fails (the Err return that the spec
labels NotFound) and performs no window-creating OS call — no
CreateWindowExW, no fix_overlapped_window_size, no SetWindowSubclass — and
leaves the state unchanged; but the failure is NOT before any OS call,
because the unconditional GetModuleHandleW module lookup at function entry
precedes the parent check, so the trace of the failing call is exactly
[getModuleHandle]. -/
theorem create_notfound_before_window_creation (ID T : Type) [DecidableEq ID]
    (s : State ID T) (base : WindowBase ID) (id : ID)
    (hp : base.parent = some id)
    (habs : ∀ e ∈ s.controls, e.1 ≠ id) :
    create_base s base = ([Event.getModuleHandle], Except.error (), s) := by
  have hf : s.controls.find? (fun e => decide (e.1 = id)) = none := by
    apply List.find?_eq_none.mpr
    intro e he
    simp [habs e he]
  simp [create_base, resolveParent, hp, hf]

/-- Concrete descriptor naming the absent parent identifier 7. -/
def c2Base : WindowBase Nat :=
  { text := ""
    size := (0, 0)
    position := (0, 0)
    visible := true
    resizable := true
    extra_style := 0
    className := ""
    parent := some 7 }

/-- Claim C2, counterexample: for the concrete descriptor whose parent
identifier 7 is absent from the (empty) collection, create_base does fail,
but its event trace is the nonempty [getModuleHandle]: an OS API call is
made before the failure, contradicting "before any OS call is made". -/
theorem os_call_precedes_notfound :
    (create_base emptyState c2Base).2.1 = Except.error ()
    ∧ (create_base emptyState c2Base).1 = [Event.getModuleHandle]
    ∧ (create_base emptyState c2Base).1 ≠ [] :=
  ⟨rfl, rfl, by decide⟩

/-- Witness for the amended claim C2 at the concrete descriptor c2Base. -/
theorem create_notfound_before_window_creation_witness :
    c2Base.parent = some 7 ∧ (∀ e ∈ emptyState.controls, e.1 ≠ 7)
    ∧ create_base emptyState c2Base
        = ([Event.getModuleHandle], Except.error (), emptyState) :=
  ⟨by decide, by decide,
   create_notfound_before_window_creation Nat Nat emptyState c2Base 7
     (by decide) (by decide)⟩

/-- Claim C6, amended: in the canvas-builder path a parented build strips
every top-level decoration bit (WS_CAPTION, WS_SYSMENU, WS_MINIMIZEBOX,
WS_THICKFRAME, WS_MAXIMIZEBOX) and forces WS_CHILD, regardless of the flag
bits the caller requested; in the create_base path a parented descriptor
also gets WS_CHILD forced and no decoration bits added by create_base
itself, but decoration bits present in the descriptor's extra_style are
retained, NOT stripped (the stripping only happens in the builder path). -/
theorem parent_strips_decor_in_builder_only :
    (∀ f : Option Nat,
        canvasBuildFlags f true &&& DECOR_MASK = 0
        ∧ canvasBuildFlags f true &&& WS_CHILD = WS_CHILD)
    ∧ (∀ (v r : Bool) (extra : Nat),
        evalWindowFlags v false r extra &&& WS_CHILD = WS_CHILD
        ∧ evalWindowFlags v false r extra &&& DECOR_MASK = extra &&& DECOR_MASK) := by
  constructor
  · intro f
    cases f with
    | none => exact ⟨by decide, by decide⟩
    | some x =>
      constructor
      · show ((x &&& not32 DECOR_MASK) ||| WS_CHILD) &&& DECOR_MASK = 0
        rw [and_or_mask, Nat.and_assoc,
          show not32 DECOR_MASK &&& DECOR_MASK = 0 from by decide,
          Nat.and_zero,
          show WS_CHILD &&& DECOR_MASK = 0 from by decide]
        decide
      · show ((x &&& not32 DECOR_MASK) ||| WS_CHILD) &&& WS_CHILD = WS_CHILD
        rw [and_or_mask, Nat.and_assoc,
          show not32 DECOR_MASK &&& WS_CHILD = WS_CHILD from by decide,
          show WS_CHILD &&& WS_CHILD = WS_CHILD from by decide]
        exact and_lor_self x WS_CHILD
  · intro v r extra
    rw [evalWindowFlags_false_eq]
    constructor
    · exact or_preserves_mask _ _ _ (by cases v <;> decide)
    · exact or_and_of_disjoint _ _ _ (by cases v <;> decide)

/-- Concrete state whose collection maps identifier 5 to the live handle
77, used to drive a parented create_base call. -/
def c6State : State Nat Nat :=
  { windows := [77]
    parent := fun _ => none
    winLong := fun _ _ => 0
    heap := { next := 0, mem := fun _ => none }
    controls := [(5, 77)] }

/-- Concrete parented descriptor requesting the decoration bit WS_CAPTION
through extra_style. -/
def c6Base : WindowBase Nat :=
  { text := ""
    size := (0, 0)
    position := (0, 0)
    visible := false
    resizable := false
    extra_style := WS_CAPTION
    className := ""
    parent := some 5 }

/-- Claim C6, counterexample: create_base on the concrete parented
descriptor whose extra_style carries WS_CAPTION produces a window whose
final style still contains that decoration bit — the create_base path does
not strip decoration bits requested by the caller. -/
theorem parented_create_base_keeps_decoration :
    c6Base.parent = some 5 ∧ resolveParent c6State c6Base = some 77
    ∧ Event.createWindow 78 (evalWindowFlags false false false WS_CAPTION)
        ∈ (create_base c6State c6Base).1
    ∧ evalWindowFlags false false false WS_CAPTION &&& DECOR_MASK ≠ 0
    ∧ evalWindowFlags false false false WS_CAPTION &&& WS_CAPTION = WS_CAPTION := by
  decide
